import Mathlib

/-!
Shallow embedding of the `ichack26` assistive-device prototype
(`writeModule.py`, `addTTS.py`): the button-driven dispatcher state
machine (IDLE / CONFIRMING with single/double-tap disambiguation),
the mode selector, LCD line formatting, NFC read/write wrappers, the
scan function with its non-blocking lock, and module startup.

External collaborators (GPIO levels, camera + vision API, NFC
hardware, wall-clock time) appear as explicit parameters: the sampled
input levels of a polling loop, the `Option String` result of
`analyze_current_view`, the success bit of `reader.write`, and so on.
The polling loops sleep 10 ms between samples, so time is modelled on
a 10 ms grid measured in milliseconds.
-/

namespace IcHack

/-- `Mode` enum of `writeModule.py` (line 57): the three scan modes. -/
inductive Mode where
  | MODE_1   -- "Text Reading"
  | MODE_2   -- "Object Detect"
  | MODE_3   -- "Braille Read"
deriving DecidableEq, Repr

/-- The `.value` string of each `Mode` member. -/
def Mode.value : Mode → String
  | .MODE_1 => "Text Reading"
  | .MODE_2 => "Object Detect"
  | .MODE_3 => "Braille Read"

/-- `AppState` enum of `writeModule.py` (line 62). -/
inductive AppState where
  | IDLE
  | CONFIRMING
deriving DecidableEq, Repr

/-- Transient tap classification produced by the trigger loop. -/
inductive TapEvent where
  | single
  | double
deriving DecidableEq, Repr

/-! ### Tap detection (`monitor_trigger_button`, lines 314-335 / 341-350)

After the first press is released the loop polls the trigger input
every 10 ms while the elapsed time is below 400 ms; seeing the active
(LOW = pressed) level inside the window classifies the tap as double,
exhausting the window classifies it as single.  `pressed t` is the
sampled level `t` milliseconds after the release (`true` = LOW). -/

/-- One iteration of `while (time.time() - start_time) < 0.4:` with a
10 ms sleep; `fuel` bounds the iteration count (the loop itself stops
once `elapsed` reaches 400). -/
def doubleTapPoll (pressed : Nat → Bool) (elapsed : Nat) : Nat → Bool
  | 0 => false
  | fuel + 1 =>
    if elapsed < 400 then
      if pressed elapsed then true
      else doubleTapPoll pressed (elapsed + 10) fuel
    else false

/-- The 400 ms double-tap window started at the release of the first
press: 41 iterations of the poll loop cover elapsed times 0, 10, …,
400, at which point the window test fails. -/
def detectDoubleTap (pressed : Nat → Bool) : Bool :=
  doubleTapPoll pressed 0 41

/-- Classification assigned by the trigger loop after the window. -/
def classifyTap (pressed : Nat → Bool) : TapEvent :=
  if detectDoubleTap pressed then .double else .single

theorem doubleTapPoll_eq_true_iff (pressed : Nat → Bool) :
    ∀ fuel elapsed, doubleTapPoll pressed elapsed fuel = true ↔
      ∃ k, k < fuel ∧ elapsed + 10 * k < 400 ∧ pressed (elapsed + 10 * k) = true := by
  intro fuel
  induction fuel with
  | zero => intro elapsed; simp [doubleTapPoll]
  | succ n ih =>
    intro elapsed
    by_cases hw : elapsed < 400
    · by_cases hp : pressed elapsed = true
      · rw [doubleTapPoll, if_pos hw, if_pos hp]
        constructor
        · intro _; exact ⟨0, Nat.succ_pos n, by simpa using hw, by simpa using hp⟩
        · intro _; rfl
      · rw [doubleTapPoll, if_pos hw, if_neg hp, ih (elapsed + 10)]
        constructor
        · rintro ⟨k, hk, hlt, hpk⟩
          exact ⟨k + 1, by omega, by omega, by
            have : elapsed + 10 * (k + 1) = elapsed + 10 + 10 * k := by ring
            rw [this]; exact hpk⟩
        · rintro ⟨k, hk, hlt, hpk⟩
          cases k with
          | zero => simp at hpk; exact absurd hpk hp
          | succ m =>
            refine ⟨m, by omega, by omega, ?_⟩
            have : elapsed + 10 + 10 * m = elapsed + 10 * (m + 1) := by ring
            rw [this]; exact hpk
    · rw [doubleTapPoll, if_neg hw]
      constructor
      · intro h; exact absurd h (by simp)
      · rintro ⟨k, _, hlt, _⟩; omega

theorem detectDoubleTap_iff (pressed : Nat → Bool) :
    detectDoubleTap pressed = true ↔
      ∃ k, 10 * k < 400 ∧ pressed (10 * k) = true := by
  unfold detectDoubleTap
  rw [doubleTapPoll_eq_true_iff]
  constructor
  · rintro ⟨k, _, hlt, hp⟩
    exact ⟨k, by simpa using hlt, by simpa using hp⟩
  · rintro ⟨k, hlt, hp⟩
    exact ⟨k, by omega, by simpa using hlt, by simpa using hp⟩

/-! ### LCD line formatting (`lcd_write_line`, line 157)

`s = (s or "").ljust(LCD_WIDTH)[:LCD_WIDTH]` — on a string argument
`s or ""` is the identity (an empty string stays empty), `ljust` pads
with spaces on the right up to the width, and the slice truncates. -/

def LCD_WIDTH : Nat := 16

/-- Python `s.ljust(w)`: append spaces on the right up to width `w`
(a string already at least `w` long is returned unchanged). -/
def pyLjust (s : String) (w : Nat) : String :=
  ⟨s.data ++ List.replicate (w - s.data.length) ' '⟩

/-- The character sequence `lcd_write_line` actually renders for an
argument `s`. -/
def lcd_line_fmt (s : String) : String :=
  ⟨(pyLjust s LCD_WIDTH).data.take LCD_WIDTH⟩

/-- Modelled from the spec words of §4.3: each `writeLines` argument
is LEFT-padded (spaces prepended) or truncated to the fixed column
width.  Stated only for comparison with `lcd_line_fmt`, the definition
taken from the source. -/
def writeLines_leftPad_fmt (s : String) : String :=
  ⟨List.replicate (LCD_WIDTH - s.data.length) ' ' ++ s.data.take LCD_WIDTH⟩

/-! ### System state

One record collects the module globals (`current_state`,
`current_mode`, `last_result_text`, `scan_lock`) together with
observation logs for the external collaborators: every
`safe_lcd_write` call, every `writeNfc` call and the payload each
passes to `reader.write`, and the invocation counts of `reader.read`
and of the camera/vision analysis. -/

structure SysState where
  state : AppState
  mode : Mode
  lastResult : String
  displayLog : List (String × String)
  writeNfcCalls : List String
  readerWrites : List String
  nfcReadCalls : Nat
  scanCalls : Nat
  scanLockHeld : Bool
deriving DecidableEq, Repr

/-- `safe_lcd_write(line1, line2)` (line 175): logged as one rendered
pair; the preceding `safe_lcd_clear` calls carry no text and are not
logged. -/
def safe_lcd_write (s : SysState) (line1 line2 : String) : SysState :=
  { s with displayLog := s.displayLog ++ [(line1, line2)] }

/-- `reset_to_ready` (line 233): state back to `IDLE`, then show the
ready prompt for the current mode. -/
def reset_to_ready (s : SysState) : SysState :=
  let s1 : SysState := { s with state := .IDLE }
  safe_lcd_write s1 "Ready to Scan:" s1.mode.value

/-- `writeNfc(text)` (line 73): truncate to 48 characters, prompt for
a tag, invoke `reader.write`; `writeOk` is whether the hardware call
returned (true) or raised (false, caught and reported). -/
def writeNfc (text : String) (writeOk : Bool) (s : SysState) : Bool × SysState :=
  let text_to_write := text.take 48
  let s1 : SysState := { s with writeNfcCalls := s.writeNfcCalls ++ [text] }
  let s2 := safe_lcd_write s1 "Hold Tag Near" "Reader..."
  let s3 : SysState := { s2 with readerWrites := s2.readerWrites ++ [text_to_write] }
  if writeOk then (true, s3) else (false, s3)

/-- `readNfc()` (line 90): blocking `reader.read` modelled by its
outcome — `some text` for a tag with payload `text`, `none` for an
exception (caught by the handler at line 118). -/
def readNfc (readRes : Option String) (s : SysState) : SysState :=
  let s1 := safe_lcd_write s "Hold Tag Near" "Reader..."
  let s2 : SysState := { s1 with nfcReadCalls := s1.nfcReadCalls + 1 }
  match readRes with
  | some text =>
    let clean_text := text.trim
    let s3 := safe_lcd_write s2 "Read Success!" "Showing Data..."
    let s4 := safe_lcd_write s3 (clean_text.take 16) ((clean_text.drop 16).take 16)
    reset_to_ready s4
  | none =>
    let s3 := safe_lcd_write s2 "Read Failed" ""
    reset_to_ready s3

/-- Python truthiness of the `analyze_current_view()` result used by
`if prediction:` — `None` and the empty string are falsy. -/
def pyTruthy : Option String → Bool
  | none => false
  | some t => t != ""

inductive ScanOutcome where
  | rejected       -- lock already held: immediate return, no effect
  | raised         -- an exception escaped the try block
  | confirmingSet  -- truthy analysis result: CONFIRMING entered
  | failed         -- falsy analysis result: error shown, back to ready
deriving DecidableEq, Repr

/-- `perform_scan()` (line 239).  `pred` is the result of
`analyze_current_view()`; `exc = some body` models an exception
raised inside the `try` block, with `body` the arbitrary partial
effects performed before the raise — the `finally` clause releases
`scan_lock` in every case. -/
def perform_scan (pred : Option String) (exc : Option (SysState → SysState))
    (s : SysState) : ScanOutcome × SysState :=
  if s.scanLockHeld then (.rejected, s)
  else
    let s1 : SysState := { s with scanLockHeld := true }
    match exc with
    | some body => (.raised, { body s1 with scanLockHeld := false })
    | none =>
      let s2 := safe_lcd_write s1 "Thinking..." s1.mode.value
      let s3 : SysState := { s2 with scanCalls := s2.scanCalls + 1 }
      if pyTruthy pred then
        let prediction := pred.getD ""
        let s4 : SysState := { s3 with lastResult := prediction, state := .CONFIRMING }
        let s5 := safe_lcd_write s4 (prediction.take 16) "1x:Write 2x:Drop"
        (.confirmingSet, { s5 with scanLockHeld := false })
      else
        let s4 := safe_lcd_write s3 "Error / Failed" ""
        let s5 := reset_to_ready s4
        (.failed, { s5 with scanLockHeld := false })

/-- The mode cycle of `monitor_mode_button` (lines 283-285). -/
def cycleMode : Mode → Mode
  | .MODE_1 => .MODE_2
  | .MODE_2 => .MODE_3
  | .MODE_3 => .MODE_1

/-- One debounced falling edge on the mode input (lines 281-292):
cycle the mode, force `IDLE`, show the change. -/
def modePress (s : SysState) : SysState :=
  let new_mode := cycleMode s.mode
  let s1 : SysState := { s with mode := new_mode, state := .IDLE }
  safe_lcd_write s1 "Mode Changed:" new_mode.value

/-- The dispatcher's reaction to one classified tap
(`monitor_trigger_button`, lines 311-366), with the external outcomes
as parameters: `pred` for the scan analysis, `writeOk` for
`reader.write`, `readRes` for `reader.read`. -/
def trigger_tap (tap : TapEvent) (pred : Option String) (writeOk : Bool)
    (readRes : Option String) (s : SysState) : SysState :=
  match s.state, tap with
  | .IDLE, .double => readNfc readRes s
  | .IDLE, .single => (perform_scan pred none s).2
  | .CONFIRMING, .double =>
    let s1 := safe_lcd_write s "Cancelled." ""
    reset_to_ready s1
  | .CONFIRMING, .single =>
    let r := writeNfc s.lastResult writeOk s
    let s1 := safe_lcd_write r.2 (if r.1 then "Write Success!" else "Write Failed.") ""
    reset_to_ready s1

/-- The events the running system processes: classified trigger taps,
debounced mode edges, and the keyboard fallback commands of the main
loop (lines 405-418).  An exception escaping `perform_scan` kills the
invoking thread, so post-exception states generate no further events
and `exc = none` here. -/
inductive Event where
  | trigger (tap : TapEvent) (pred : Option String) (writeOk : Bool) (readRes : Option String)
  | modeEdge
  | kbScan (pred : Option String)
  | kbNfc (readRes : Option String)

def step : Event → SysState → SysState
  | .trigger tap pred writeOk readRes, s => trigger_tap tap pred writeOk readRes s
  | .modeEdge, s => modePress s
  | .kbScan pred, s => (perform_scan pred none s).2
  | .kbNfc readRes, s => readNfc readRes s

/-- The module globals as initialized at lines 66-68 (lock free,
nothing logged yet). -/
def initState : SysState :=
  { state := .IDLE, mode := .MODE_1, lastResult := "",
    displayLog := [], writeNfcCalls := [], readerWrites := [],
    nfcReadCalls := 0, scanCalls := 0, scanLockHeld := false }

/-- States the dispatcher can be in after any finite event sequence. -/
inductive Reachable : SysState → Prop where
  | start : Reachable initState
  | next (e : Event) {s : SysState} : Reachable s → Reachable (step e s)

/-! ### Module startup (`writeModule.py` lines 36-55, `addTTS.py`
lines 13-34): key-file load and NFC reader construction. -/

structure StartupResult where
  exited : Bool
  diagnostics : List String
deriving DecidableEq, Repr

/-- `writeModule.py` startup: a missing `~/KEY.txt` prints and calls
`exit()`; a failing `SimpleMFRC522()` constructor is caught, printed —
and execution continues (no `exit()` in that handler, lines 52-55). -/
def writeModule_startup (keyFile : Option String) (nfcInitOk : Bool) : StartupResult :=
  match keyFile with
  | none =>
    { exited := true,
      diagnostics := ["[ERROR] Could not find key file at: ~/KEY.txt"] }
  | some _ =>
    if nfcInitOk then { exited := false, diagnostics := [] }
    else { exited := false, diagnostics := ["[ERROR] NFC Init Failed"] }

/-- `addTTS.py` startup: a missing `~/KEY1.txt` prints two lines and
calls `exit()`; a failing `SimpleMFRC522()` constructor prints and
calls `exit()` (lines 30-34). -/
def addTTS_startup (keyFile : Option String) (nfcInitOk : Bool) : StartupResult :=
  match keyFile with
  | none =>
    { exited := true,
      diagnostics := ["[ERROR] Could not find key file at: ~/KEY1.txt",
        "Please ensure ~/KEY.txt exists and contains your ElevenLabs API key."] }
  | some _ =>
    if nfcInitOk then { exited := false, diagnostics := [] }
    else { exited := true, diagnostics := ["[ERROR] NFC Init Failed"] }

/-! ### Helper lemmas -/

theorem pyTruthy_getD {pred : Option String} (h : pyTruthy pred = true) :
    pred.getD "" ≠ "" := by
  cases pred with
  | none => simp [pyTruthy] at h
  | some t => simpa [pyTruthy, bne_iff_ne] using h

/-! ### The claims -/

/-- C1: in the dispatcher's 10 ms-grid polling of the trigger input, a
tap is classified Single iff no active-low sample occurs within 400 ms
of the release of the first press, and Double iff one does. -/
theorem C1_tap_classification (pressed : Nat → Bool) :
    (classifyTap pressed = .single ↔ ¬ ∃ k, 10 * k < 400 ∧ pressed (10 * k) = true) ∧
    (classifyTap pressed = .double ↔ ∃ k, 10 * k < 400 ∧ pressed (10 * k) = true) := by
  unfold classifyTap
  by_cases h : detectDoubleTap pressed = true
  · rw [if_pos h]
    have hex := (detectDoubleTap_iff pressed).mp h
    exact ⟨⟨fun hs => absurd hs (by decide), fun hn => absurd hex hn⟩,
           ⟨fun _ => hex, fun _ => rfl⟩⟩
  · rw [if_neg h]
    have hn : ¬ ∃ k, 10 * k < 400 ∧ pressed (10 * k) = true :=
      fun hex => h ((detectDoubleTap_iff pressed).mpr hex)
    exact ⟨⟨fun _ => hn, fun _ => rfl⟩,
           ⟨fun hd => absurd hd (by decide), fun hex => absurd hex hn⟩⟩

/-- C3: in CONFIRMING, a single tap invokes `writeNfc` with the current
pending result (passing its 48-character truncation to `reader.write`),
ends in IDLE whether the write succeeded or failed, and the displayed
message is the only difference. -/
theorem C3_confirm_single_writes_pending (s : SysState) (pred : Option String)
    (writeOk : Bool) (readRes : Option String) (h : s.state = .CONFIRMING) :
    (trigger_tap .single pred writeOk readRes s).state = .IDLE ∧
    (trigger_tap .single pred writeOk readRes s).writeNfcCalls
      = s.writeNfcCalls ++ [s.lastResult] ∧
    (trigger_tap .single pred writeOk readRes s).readerWrites
      = s.readerWrites ++ [s.lastResult.take 48] ∧
    ((if writeOk then "Write Success!" else "Write Failed."), "")
      ∈ (trigger_tap .single pred writeOk readRes s).displayLog := by
  cases writeOk <;>
    simp [trigger_tap, h, writeNfc, safe_lcd_write, reset_to_ready]

theorem C3_confirm_single_writes_pending_witness :
    ({ initState with state := .CONFIRMING, lastResult := "Red Mug" } : SysState).state
        = .CONFIRMING ∧
    (trigger_tap .single none true none
        { initState with state := .CONFIRMING, lastResult := "Red Mug" }).state = .IDLE ∧
    (trigger_tap .single none true none
        { initState with state := .CONFIRMING, lastResult := "Red Mug" }).writeNfcCalls
      = ({ initState with state := .CONFIRMING, lastResult := "Red Mug" } : SysState).writeNfcCalls
          ++ [({ initState with state := .CONFIRMING, lastResult := "Red Mug" } : SysState).lastResult] :=
  ⟨by decide,
   (C3_confirm_single_writes_pending
      { initState with state := .CONFIRMING, lastResult := "Red Mug" }
      none true none (by decide)).1,
   (C3_confirm_single_writes_pending
      { initState with state := .CONFIRMING, lastResult := "Red Mug" }
      none true none (by decide)).2.1⟩

/-- C4: in CONFIRMING, a double tap shows "Cancelled." on the display
and ends in IDLE without any `writeNfc` call or `reader.write`
payload, leaving the pending text unwritten. -/
theorem C4_confirm_double_cancels (s : SysState) (pred : Option String)
    (writeOk : Bool) (readRes : Option String) (h : s.state = .CONFIRMING) :
    (trigger_tap .double pred writeOk readRes s).state = .IDLE ∧
    (trigger_tap .double pred writeOk readRes s).writeNfcCalls = s.writeNfcCalls ∧
    (trigger_tap .double pred writeOk readRes s).readerWrites = s.readerWrites ∧
    ("Cancelled.", "") ∈ (trigger_tap .double pred writeOk readRes s).displayLog := by
  simp [trigger_tap, h, safe_lcd_write, reset_to_ready]

theorem C4_confirm_double_cancels_witness :
    ({ initState with state := .CONFIRMING, lastResult := "Red Mug" } : SysState).state
        = .CONFIRMING ∧
    (trigger_tap .double none true none
        { initState with state := .CONFIRMING, lastResult := "Red Mug" }).state = .IDLE ∧
    (trigger_tap .double none true none
        { initState with state := .CONFIRMING, lastResult := "Red Mug" }).writeNfcCalls
      = ({ initState with state := .CONFIRMING, lastResult := "Red Mug" } : SysState).writeNfcCalls :=
  ⟨by decide,
   (C4_confirm_double_cancels
      { initState with state := .CONFIRMING, lastResult := "Red Mug" }
      none true none (by decide)).1,
   (C4_confirm_double_cancels
      { initState with state := .CONFIRMING, lastResult := "Red Mug" }
      none true none (by decide)).2.1⟩

/-- C5: a `perform_scan` call made while the scan lock is held returns
immediately with the rejected outcome and the state entirely
unchanged — no Scanner invocation, no mutation, no queuing. -/
theorem C5_concurrent_scan_rejected (pred : Option String)
    (exc : Option (SysState → SysState)) (s : SysState)
    (h : s.scanLockHeld = true) :
    perform_scan pred exc s = (.rejected, s) := by
  simp [perform_scan, h]

theorem C5_concurrent_scan_rejected_witness :
    ({ initState with scanLockHeld := true } : SysState).scanLockHeld = true ∧
    perform_scan (some "Red Mug") none { initState with scanLockHeld := true }
      = (.rejected, { initState with scanLockHeld := true }) :=
  ⟨by decide,
   C5_concurrent_scan_rejected (some "Red Mug") none
     { initState with scanLockHeld := true } (by decide)⟩

/-- C9: a `perform_scan` call that finds the lock free releases it on
every exit path — successful analysis, failed analysis, or an
exception raised inside the try block (`finally`) — so an immediately
following scan attempt is not rejected. -/
theorem C9_scan_lock_released (pred pred2 : Option String)
    (exc : Option (SysState → SysState)) (s : SysState)
    (h : s.scanLockHeld = false) :
    ((perform_scan pred exc s).2).scanLockHeld = false ∧
    (perform_scan pred2 none (perform_scan pred exc s).2).1 ≠ .rejected := by
  have hfree : ((perform_scan pred exc s).2).scanLockHeld = false := by
    cases exc with
    | some body => simp [perform_scan, h]
    | none =>
      by_cases ht : pyTruthy pred = true <;>
        simp [perform_scan, h, ht, safe_lcd_write, reset_to_ready]
  refine ⟨hfree, ?_⟩
  generalize (perform_scan pred exc s).2 = t at hfree
  cases hexc2 : pyTruthy pred2 <;>
    simp [perform_scan, hfree, hexc2, safe_lcd_write, reset_to_ready]

theorem C9_scan_lock_released_witness :
    (initState.scanLockHeld = false) ∧
    ((perform_scan (some "Red Mug") none initState).2).scanLockHeld = false ∧
    (perform_scan none none (perform_scan (some "Red Mug") none initState).2).1
      ≠ .rejected :=
  ⟨by decide,
   (C9_scan_lock_released (some "Red Mug") none none initState (by decide)).1,
   (C9_scan_lock_released (some "Red Mug") none none initState (by decide)).2⟩

/-- C10: `readNfc` ends with the application state IDLE on both its
success and its failure path, from every starting state, and performs
no NFC write — in particular the keyboard `nfc` command issued while
CONFIRMING exits the confirmation to IDLE without writing. -/
theorem C10_readNfc_ends_idle (readRes : Option String) (s : SysState) :
    (step (.kbNfc readRes) s).state = .IDLE ∧
    (step (.kbNfc readRes) s).writeNfcCalls = s.writeNfcCalls ∧
    (step (.kbNfc readRes) s).readerWrites = s.readerWrites ∧
    step (.kbNfc readRes) s = readNfc readRes s := by
  refine ⟨?_, ?_, ?_, rfl⟩ <;>
    cases readRes <;>
      simp [step, readNfc, safe_lcd_write, reset_to_ready]

/-- One step preserves "CONFIRMING implies a nonempty pending text":
the only branch that produces CONFIRMING is the truthy-analysis branch
of `perform_scan`, which stores that (nonempty) analysis text. -/
theorem step_confirming_pending (e : Event) (s : SysState)
    (hs : s.state = .CONFIRMING → s.lastResult ≠ "") :
    (step e s).state = .CONFIRMING → (step e s).lastResult ≠ "" := by
  have hscan : ∀ pred : Option String,
      (perform_scan pred none s).2.state = .CONFIRMING →
        (perform_scan pred none s).2.lastResult ≠ "" := by
    intro pred
    by_cases hl : s.scanLockHeld = true
    · simpa [perform_scan, hl] using hs
    · by_cases ht : pyTruthy pred = true
      · intro _
        simpa [perform_scan, hl, ht, safe_lcd_write] using pyTruthy_getD ht
      · simp [perform_scan, hl, ht, safe_lcd_write, reset_to_ready]
  cases e with
  | trigger tap pred writeOk readRes =>
    cases hst : s.state with
    | IDLE =>
      cases tap with
      | double =>
        cases readRes <;>
          simp [step, trigger_tap, hst, readNfc, safe_lcd_write, reset_to_ready]
      | single => simpa [step, trigger_tap, hst] using hscan pred
    | CONFIRMING =>
      cases tap <;> cases writeOk <;>
        simp [step, trigger_tap, hst, writeNfc, safe_lcd_write, reset_to_ready]
  | modeEdge => simp [step, modePress, safe_lcd_write]
  | kbScan pred => simpa [step] using hscan pred
  | kbNfc readRes =>
    cases readRes <;>
      simp [step, readNfc, safe_lcd_write, reset_to_ready]

theorem reachable_confirming_pending :
    ∀ s : SysState, Reachable s → s.state = .CONFIRMING → s.lastResult ≠ "" := by
  intro s h
  induction h with
  | start => intro hc; exact absurd hc (by decide)
  | next e hr ih => exact step_confirming_pending e _ ih

/-- C2 counterexample: after a successful scan of "Red Mug" followed by
a cancelling double tap, the dispatcher is reachably in IDLE while
`last_result_text` still holds "Red Mug" — no transition out of
CONFIRMING clears it, so the claimed iff fails. -/
theorem C2_counterexample :
    ¬ (∀ s : SysState, Reachable s →
        (s.state = .CONFIRMING ↔ s.lastResult ≠ "")) := by
  intro hcl
  have hr : Reachable (step (.trigger .double none true none)
      (step (.kbScan (some "Red Mug")) initState)) :=
    Reachable.next _ (Reachable.next _ Reachable.start)
  have h2 := (hcl _ hr).mpr (by decide)
  exact absurd h2 (by decide)

/-- C2 (amended): at every reachable point CONFIRMING implies a
nonempty `last_result_text`, and every trigger tap received in
CONFIRMING moves the state to IDLE — but leaves `last_result_text`
unchanged (the pending text is never cleared). -/
theorem C2_confirming_pending_amended :
    (∀ s : SysState, Reachable s → s.state = .CONFIRMING → s.lastResult ≠ "") ∧
    (∀ (s : SysState) (tap : TapEvent) (pred : Option String) (writeOk : Bool)
        (readRes : Option String), s.state = .CONFIRMING →
      (trigger_tap tap pred writeOk readRes s).state = .IDLE ∧
      (trigger_tap tap pred writeOk readRes s).lastResult = s.lastResult) := by
  refine ⟨reachable_confirming_pending, ?_⟩
  intro s tap pred writeOk readRes h
  cases tap <;> cases writeOk <;>
    simp [trigger_tap, h, writeNfc, safe_lcd_write, reset_to_ready]

theorem C2_confirming_pending_amended_witness :
    (step (.kbScan (some "Red Mug")) initState).lastResult ≠ "" :=
  C2_confirming_pending_amended.1 _
    (Reachable.next _ Reachable.start) (by decide)

/-- C6 counterexample: in `writeModule.py` an NFC reader init failure
with the key file present does not exit the process. -/
theorem C6_counterexample :
    ¬ ((writeModule_startup (some "sk-key") false).exited = true) := by
  decide

/-- C6 (amended): a missing credential file prints a diagnostic and
exits in both modules, and an NFC init failure prints and exits in
`addTTS.py`; in `writeModule.py` an NFC init failure prints a
diagnostic but the process continues running. -/
theorem C6_startup_failures :
    (∀ ok : Bool, (writeModule_startup none ok).exited = true ∧
      (writeModule_startup none ok).diagnostics ≠ []) ∧
    (∀ ok : Bool, (addTTS_startup none ok).exited = true ∧
      (addTTS_startup none ok).diagnostics ≠ []) ∧
    (∀ k : String, (addTTS_startup (some k) false).exited = true ∧
      (addTTS_startup (some k) false).diagnostics ≠ []) ∧
    (∀ k : String, (writeModule_startup (some k) false).exited = false ∧
      (writeModule_startup (some k) false).diagnostics ≠ []) := by
  refine ⟨fun ok => ?_, fun ok => ?_, fun k => ?_, fun k => ?_⟩ <;>
    simp [writeModule_startup, addTTS_startup]

/-- C7: the mode selector cycles Text Reading → Object Detect →
Braille Read → Text Reading; after n edges the mode is the n-fold
cycle of the start, three consecutive edges restore it, and every
mode change forces the application state back to IDLE. -/
theorem C7_mode_cycles :
    (cycleMode .MODE_1 = .MODE_2 ∧ cycleMode .MODE_2 = .MODE_3 ∧
      cycleMode .MODE_3 = .MODE_1) ∧
    (∀ (n : Nat) (s : SysState), ((modePress)^[n] s).mode = (cycleMode)^[n] s.mode) ∧
    (∀ s : SysState, ((modePress)^[3] s).mode = s.mode) ∧
    (∀ s : SysState, (modePress s).state = .IDLE) := by
  have hcycle3 : ∀ m : Mode, (cycleMode)^[3] m = m := by
    intro m; cases m <;> rfl
  have hmode : ∀ (n : Nat) (s : SysState),
      ((modePress)^[n] s).mode = (cycleMode)^[n] s.mode := by
    intro n
    induction n with
    | zero => intro s; simp
    | succ m ih =>
      intro s
      rw [Function.iterate_succ_apply, Function.iterate_succ_apply, ih]
      congr 1
  refine ⟨⟨rfl, rfl, rfl⟩, hmode, fun s => ?_, fun s => ?_⟩
  · rw [hmode 3 s, hcycle3]
  · simp [modePress, safe_lcd_write]

/-- C8 counterexample: `lcd_write_line` pads on the right
(`str.ljust`), not on the left, so the rendered line for "Red Mug" is
not the left-padded 16-column form of "Red Mug". -/
theorem C8_counterexample :
    lcd_line_fmt "Red Mug" ≠ writeLines_leftPad_fmt "Red Mug" := by
  decide

/-- C8 (amended): `lcd_write_line` right-pads with spaces (left
justifies) or truncates each argument to the fixed 16-column width, so
every rendered line is exactly 16 characters: the argument's first 16
characters followed by the padding spaces. -/
theorem C8_lcd_line_sixteen (s : String) :
    (lcd_line_fmt s).length = 16 ∧
    lcd_line_fmt s = ⟨s.data.take 16 ++ List.replicate (16 - s.data.length) ' '⟩ := by
  constructor
  · show ((s.data ++ List.replicate (16 - s.data.length) ' ').take 16).length = 16
    rw [List.length_take, List.length_append, List.length_replicate]
    omega
  · show (⟨(s.data ++ List.replicate (16 - s.data.length) ' ').take 16⟩ : String) = _
    congr 1
    rw [List.take_append_eq_append_take, List.take_replicate, min_self]

end IcHack
